import Mathlib

/-!
Verification development for the mea-barber booking system.

Shallow embedding of the concurrency core of the repository:
phone normalization, sliding-window rate limiting, one-time verification
code issuance/consumption, slot reservation guarded by the partial unique
index, booking-creation handlers (public, fixed admin, legacy admin,
verify-code), the SMS cancellation handler, and error sanitization.

Conventions:
* Timestamps are integers in seconds (`Date.now()` values, scaled).
* Calendar dates are integers counting midnight-aligned days
  (the value of `new Date(dateStr + "T00:00:00")` at day granularity).
* Database tables are Lean lists of records; the conditional
  UPDATE/INSERT statements become pure functions on those lists.
* Storage/transport failures are explicit boolean fault inputs, and the
  JSON request parse is an `Except` carrying the raw exception message.
-/

namespace MeaBarber

/-! ## Phone normalization (`supabase/functions/_shared/security.ts`) -/

/-- Characters kept by `phone.replace(/[^\d+]/g, "")`. -/
def phoneChar (c : Char) : Bool := c.isDigit || c == '+'

/-- `phone.replace(/[^\d+]/g, "")`. -/
def cleanPhone (l : List Char) : List Char := l.filter phoneChar

/-- `normalizePhone` from `_shared/security.ts`, on character lists.
`none` models the thrown `Error("Invalid phone number format")`. -/
def normalizePhoneL (l : List Char) : Option (List Char) :=
  if (cleanPhone l).take 4 = ['+', '9', '7', '2'] then some (cleanPhone l)
  else if (cleanPhone l).take 3 = ['9', '7', '2'] then some ('+' :: cleanPhone l)
  else if (cleanPhone l).take 1 = ['0'] then
    some (['+', '9', '7', '2'] ++ (cleanPhone l).drop 1)
  else if (cleanPhone l).length = 9 && (cleanPhone l).all Char.isDigit then
    some (['+', '9', '7', '2'] ++ cleanPhone l)
  else none

/-- `normalizePhone` on strings. -/
def normalizePhone (s : String) : Option String :=
  (normalizePhoneL s.data).map String.mk

/-- `toLocalPhone` from `_shared/security.ts`:
`` `0${normalizePhone(phone).slice(4)}` ``; propagates the normalize failure. -/
def toLocalPhone (s : String) : Option String :=
  (normalizePhoneL s.data).map (fun l => String.mk ('0' :: l.drop 4))

/-! ## Error sanitization (`sanitizeError` in `_shared/security.ts`) -/

/-- The `SAFE_ERROR_MESSAGES` table, in object-literal insertion order. -/
def SAFE_ERROR_MESSAGES : List (String × String) :=
  [("Missing required fields", "חסרים שדות חובה"),
   ("Invalid phone number format", "מספר טלפון לא תקין"),
   ("Invalid code format", "קוד לא תקין"),
   ("Rate limit exceeded", "יותר מדי ניסיונות, נסה שוב מאוחר יותר"),
   ("Slot already booked", "השעה הזו כבר תפוסה"),
   ("Slot not available", "השעה הזו לא זמינה")]

/-- `pat` is a prefix of the first list. -/
def listHasPrefix : List Char → List Char → Bool
  | _, [] => true
  | [], _ :: _ => false
  | a :: l, b :: m => a == b && listHasPrefix l m

/-- `pat` occurs as a contiguous sublist. -/
def listHasSub : List Char → List Char → Bool
  | [], pat => pat.isEmpty
  | a :: l, pat => listHasPrefix (a :: l) pat || listHasSub l pat

/-- `message.includes(key)`. -/
def strContains (msg key : String) : Bool := listHasSub msg.data key.data

/-- `sanitizeError`: first matching safe message, else the generic fallback. -/
def sanitizeError (msg : String) : String :=
  match SAFE_ERROR_MESSAGES.find? (fun kv => strContains msg kv.fst) with
  | some kv => kv.snd
  | none => "אירעה שגיאה, נסה שוב"

/-- Every string `sanitizeError` can produce. -/
def SAFE_OUTPUTS : List String :=
  (SAFE_ERROR_MESSAGES.map Prod.snd) ++ ["אירעה שגיאה, נסה שוב"]

/-! ## Date validation (`isValidBookingDate` in `_shared/security.ts`)

`new Date(dateStr + "T00:00:00")` and the midnight-truncated `today` are
midnight-aligned calendar dates; `maxDate = today + 60 days`.  We carry
dates as day numbers. -/

def isValidBookingDate (dateDay todayDay : Int) : Bool :=
  decide (todayDay ≤ dateDay) && decide (dateDay ≤ todayDay + 60)

/-! ## Rate limiter (`check_rate_limit` SQL + `checkRateLimit` TS) -/

structure RateRecord where
  identifier : String
  action_type : String
  created_at : Int
deriving DecidableEq

structure RateLimitConfig where
  maxAttempts : Nat
  windowMinutes : Nat
deriving DecidableEq

/-- The `RATE_LIMITS` table from `_shared/security.ts`. -/
def RATE_LIMITS (action : String) : Option RateLimitConfig :=
  if action = "sms_send" then some ⟨3, 60⟩
  else if action = "verify_attempt" then some ⟨10, 15⟩
  else if action = "verify_fail" then some ⟨5, 15⟩
  else none

/-- A row counted by the SQL `check_rate_limit`:
`identifier = ?, action_type = ?, created_at > NOW() - (w minutes)`. -/
def rateRowCounted (id act : String) (windowMinutes : Nat) (now : Int)
    (r : RateRecord) : Bool :=
  r.identifier == id && r.action_type == act &&
    decide (now - (windowMinutes : Int) * 60 < r.created_at)

/-- The SQL function `check_rate_limit`: `attempt_count < p_max_attempts`. -/
def check_rate_limit (db : List RateRecord) (id act : String)
    (maxAttempts windowMinutes : Nat) (now : Int) : Bool :=
  (db.filter (rateRowCounted id act windowMinutes now)).length < maxAttempts

/-- `checkRateLimit` from `_shared/security.ts`.  `rpcError` is the RPC
transport failure; unknown actions and RPC errors are fail-open. -/
def checkRateLimit (db : List RateRecord) (id act : String) (now : Int)
    (rpcError : Bool) : Bool :=
  match RATE_LIMITS act with
  | none => true
  | some cfg =>
    if rpcError then true
    else check_rate_limit db id act cfg.maxAttempts cfg.windowMinutes now

/-- `recordRateLimit`: inserts a row; an RPC error is logged and swallowed,
leaving the table unchanged (the function always returns normally). -/
def recordRateLimit (db : List RateRecord) (id act : String) (now : Int)
    (rpcError : Bool) : List RateRecord :=
  if rpcError then db else db ++ [⟨id, act, now⟩]

/-! ## Verification store (`verification_codes` table) -/

structure VerificationCode where
  phone : String
  code : String
  expires_at : Int
  verified : Bool
deriving DecidableEq

/-- Issuance in `send-sms` (`part_002`): delete all rows for the phone,
then insert one row with `expires_at = now + ttl`, `verified = false`. -/
def issueCode (db : List VerificationCode) (phone code : String)
    (ttl now : Int) : List VerificationCode :=
  db.filter (fun r => !(r.phone == phone)) ++ [⟨phone, code, now + ttl, false⟩]

/-- Row matched by the atomic consume:
`.eq(phone).eq(code).eq(verified,false).gt(expires_at, now)`. -/
def codeMatches (phone code : String) (now : Int) (r : VerificationCode) : Bool :=
  r.phone == phone && r.code == code && r.verified == false &&
    decide (now < r.expires_at)

/-- The atomic `UPDATE ... SET verified = true ... RETURNING` with
`maybeSingle()`: returns the affected row (if any) and the updated table. -/
def consumeCode (db : List VerificationCode) (phone code : String) (now : Int) :
    Option VerificationCode × List VerificationCode :=
  (((db.filter (codeMatches phone code now)).head?).map
      (fun r => { r with verified := true }),
   db.map (fun r =>
     if codeMatches phone code now r then { r with verified := true } else r))

/-! ## Bookings and the slot store -/

structure Booking where
  id : Nat
  customer_name : String
  customer_phone : String
  booking_date : Int
  booking_time : String
  status : String
deriving DecidableEq

/-- An active (non-cancelled) booking occupying slot `(d, t)`. -/
def slotTakenBy (d : Int) (t : String) (b : Booking) : Bool :=
  b.booking_date == d && b.booking_time == t && !(b.status == "cancelled")

/-- The advisory pre-check query (`maybeSingle` on the bookings select). -/
def isSlotTaken (db : List Booking) (d : Int) (t : String) : Bool :=
  db.any (slotTakenBy d t)

structure ClosedSlot where
  closed_date : Int
  closed_time : Option String
deriving DecidableEq

/-- The closed-slot pre-check: `closed_date = d` and
(`closed_time = t` or `closed_time is null`). -/
def isSlotClosed (cs : List ClosedSlot) (d : Int) (t : String) : Bool :=
  cs.any (fun c => c.closed_date == d &&
    (c.closed_time == some t || c.closed_time == none))

/-- Result of an INSERT into `bookings` under the partial unique index
`idx_unique_active_booking_slot` on `(booking_date, booking_time)
WHERE status != 'cancelled'`.  `uniqueViolation` is the Postgres error
code 23505. -/
inductive InsertResult where
  | ok (db : List Booking) (b : Booking)
  | uniqueViolation
deriving DecidableEq

/-- INSERT guarded by the partial unique index: rejected with 23505 exactly
when the inserted row is active and an active row already holds the slot. -/
def insertBooking (db : List Booking) (b : Booking) : InsertResult :=
  if !(b.status == "cancelled") && isSlotTaken db b.booking_date b.booking_time
  then .uniqueViolation
  else .ok (db ++ [b]) b

/-- `UPDATE bookings SET status = 'cancelled' WHERE id = ?`. -/
def cancelBooking (db : List Booking) (bid : Nat) : List Booking :=
  db.map (fun r => if r.id == bid then { r with status := "cancelled" } else r)

/-- The slot-uniqueness invariant: no two rows are both active on the same
`(booking_date, booking_time)` slot. -/
def SlotUnique (db : List Booking) : Prop :=
  db.Pairwise (fun a b =>
    ¬(a.booking_date = b.booking_date ∧ a.booking_time = b.booking_time ∧
      a.status ≠ "cancelled" ∧ b.status ≠ "cancelled"))

instance (db : List Booking) : Decidable (SlotUnique db) := by
  unfold SlotUnique; infer_instance

/-! ## Cancellation handler (`sms-webhook/index.ts`) -/

/-- Digit value of a character, `none` for a non-digit. -/
def digitVal (c : Char) : Option Nat :=
  if c.isDigit then some (c.toNat - 48) else none

/-- Parse of the stored `booking_time` into seconds within the day,
modelling `new Date(`$\x7bdate\x7dT$\x7btimePart\x7d`)`: the webhook pads a
5-character `HH:MM` to `HH:MM:00`; any other shape, or an out-of-range
field, yields an invalid date (`isNaN`), modelled as `none`. -/
def parseTimeSec (s : String) : Option Nat :=
  match s.data with
  | [a, b, ':', c, d] =>
    match digitVal a, digitVal b, digitVal c, digitVal d with
    | some x, some y, some z, some w =>
      if 10 * x + y < 24 && 10 * z + w < 60 then
        some ((10 * x + y) * 3600 + (10 * z + w) * 60)
      else none
    | _, _, _, _ => none
  | [a, b, ':', c, d, ':', e, f] =>
    match digitVal a, digitVal b, digitVal c, digitVal d,
        digitVal e, digitVal f with
    | some x, some y, some z, some w, some u, some v =>
      if 10 * x + y < 24 && 10 * z + w < 60 && 10 * u + v < 60 then
        some ((10 * x + y) * 3600 + (10 * z + w) * 60 + (10 * u + v))
      else none
    | _, _, _, _, _, _ => none
  | _ => none

/-- The composed booking date-time in seconds, `none` when the stored
time is malformed. -/
def composeDateTime (b : Booking) : Option Int :=
  (parseTimeSec b.booking_time).map (fun s => b.booking_date * 86400 + (s : Int))

/-- Three hours, the minimum cancellation lead time, in seconds. -/
def THREE_HOURS : Int := 3 * 60 * 60

/-- The loop body's decision: the booking parses and
`bookingDateTime - now >= THREE_HOURS_MS`.  Malformed rows are skipped. -/
def cancellable (now : Int) (b : Booking) : Bool :=
  match composeDateTime b with
  | none => false
  | some dt => decide (THREE_HOURS ≤ dt - now)

/-- The webhook's fetch: this phone's non-cancelled bookings, in table
order (the query orders by `(booking_date, booking_time)` ascending). -/
def fetchActive (db : List Booking) (phone : String) : List Booking :=
  db.filter (fun b => b.customer_phone == phone && !(b.status == "cancelled"))

/-- Lexicographic order on character lists by code point, the order the
database's text `ORDER BY` yields on `HH:MM` time strings. -/
def charListLEb : List Char → List Char → Bool
  | [], _ => true
  | _ :: _, [] => false
  | a :: l, b :: m =>
    if a.toNat < b.toNat then true
    else if a.toNat = b.toNat then charListLEb l m
    else false

/-- The `(booking_date, booking_time)` ascending order produced by the
webhook's `ORDER BY` clause. -/
def bookingKeyLE (a b : Booking) : Prop :=
  a.booking_date < b.booking_date ∨
    (a.booking_date = b.booking_date ∧
      charListLEb a.booking_time.data b.booking_time.data = true)

instance (a b : Booking) : Decidable (bookingKeyLE a b) := by
  unfold bookingKeyLE; infer_instance

/-- The `'0'` command of `sms-webhook/index.ts`: scan the fetched ordered
bookings, cancel the first cancellable one (by id), else report the
not-cancellable outcome (`none`). -/
def handleCancellation (db : List Booking) (phone : String) (now : Int) :
    Option Booking × List Booking :=
  match (fetchActive db phone).find? (cancellable now) with
  | none => (none, db)
  | some b => (some b, cancelBooking db b.id)

/-! ## HTTP responses and the edge-function handlers -/

structure HttpResponse where
  status : Nat
  success : Bool
  error : Option String
  bookingId : Option Nat
deriving DecidableEq

/-- A `success:false` body with the given status and error message. -/
def errResponse (status : Nat) (msg : String) : HttpResponse :=
  ⟨status, false, some msg, none⟩

/-- The `success:true` booking response. -/
def okResponse (bid : Option Nat) : HttpResponse := ⟨200, true, none, bid⟩

/-- A caught exception: status 500 with the sanitized message
(`create-booking`, fixed `admin-create-booking`, `verify-code`). -/
def sanitizedFailure (msg : String) : HttpResponse :=
  errResponse 500 (sanitizeError msg)

/-- `/^\d{6}$/.test(code)`. -/
def codeFormatOk (code : String) : Bool :=
  code.data.length == 6 && code.data.all Char.isDigit

structure BookingRequest where
  phone : String
  code : String
  customer_name : String
  booking_date : Int
  booking_time : String
deriving DecidableEq

structure AdminBookingRequest where
  customer_name : String
  customer_phone : String
  booking_date : Int
  booking_time : String
deriving DecidableEq

/-- The row the public handler inserts. -/
def requestedBooking (nextId : Nat) (req : BookingRequest)
    (normalized : String) : Booking :=
  ⟨nextId, req.customer_name.trim, normalized,
    req.booking_date, req.booking_time, "confirmed"⟩

/-- `create-booking` edge function (public path).

`parse` is `await req.json()` with the raw exception message on failure;
`dbPre` is the bookings snapshot the advisory pre-checks read and `dbIns`
the snapshot the INSERT runs against (they differ exactly when a
concurrent request committed in between); `verifyFault` / `insertFault`
are unclassified storage errors on the consume UPDATE and the INSERT.
Returns the response, the verification table, and the bookings table. -/
def createBookingHandler (parse : Except String BookingRequest)
    (codes : List VerificationCode) (dbPre dbIns : List Booking)
    (closed : List ClosedSlot) (today now : Int) (nextId : Nat)
    (verifyFault insertFault : Bool) :
    HttpResponse × List VerificationCode × List Booking :=
  match parse with
  | .error m => (sanitizedFailure m, codes, dbIns)
  | .ok req =>
    if req.phone == "" || req.code == "" || req.customer_name == "" ||
        req.booking_time == "" then
      (sanitizedFailure "Missing required fields", codes, dbIns)
    else if !codeFormatOk req.code then
      (errResponse 200 "קוד לא תקין", codes, dbIns)
    else
      match normalizePhone req.phone with
      | none => (sanitizedFailure "Invalid phone number format", codes, dbIns)
      | some nphone =>
        if !isValidBookingDate req.booking_date today then
          (errResponse 200 "תאריך לא תקין", codes, dbIns)
        else if verifyFault then
          (sanitizedFailure "Database error", codes, dbIns)
        else
          match consumeCode codes nphone req.code now with
          | (none, codes') =>
            (errResponse 200 "קוד שגוי או פג תוקף", codes', dbIns)
          | (some _, codes') =>
            if isSlotTaken dbPre req.booking_date req.booking_time then
              (errResponse 200 "השעה הזו כבר תפוסה", codes', dbIns)
            else if isSlotClosed closed req.booking_date req.booking_time then
              (errResponse 200 "השעה הזו לא זמינה", codes', dbIns)
            else if insertFault then
              (sanitizedFailure "Failed to create booking", codes', dbIns)
            else
              match insertBooking dbIns (requestedBooking nextId req nphone) with
              | .uniqueViolation =>
                (errResponse 200 "השעה הזו כבר תפוסה", codes', dbIns)
              | .ok db' b => (okResponse (some b.id), codes', db')

/-- The row the admin handlers insert (fixed path: normalized phone). -/
def adminRequestedBooking (nextId : Nat) (req : AdminBookingRequest)
    (phoneStored : String) : Booking :=
  ⟨nextId, req.customer_name.trim, phoneStored,
    req.booking_date, req.booking_time, "confirmed"⟩

/-- The fixed `admin-create-booking` edge function (second handler in
`create-booking/index.ts`): auth, validation, date window, advisory
pre-checks, INSERT with the 23505 branch, sanitized catch. -/
def adminCreateBookingHandler (authHeader userOk isAdmin : Bool)
    (parse : Except String AdminBookingRequest)
    (dbPre dbIns : List Booking) (closed : List ClosedSlot)
    (today : Int) (nextId : Nat) (insertFault : Bool) :
    HttpResponse × List Booking :=
  if !authHeader then (errResponse 401 "Unauthorized", dbIns)
  else if !userOk then (errResponse 401 "Unauthorized", dbIns)
  else if !isAdmin then (errResponse 403 "Forbidden - Admin only", dbIns)
  else
    match parse with
    | .error m => (sanitizedFailure m, dbIns)
    | .ok req =>
      if req.customer_name == "" || req.customer_phone == "" ||
          req.booking_time == "" then
        (sanitizedFailure "Missing required fields", dbIns)
      else
        match normalizePhone req.customer_phone with
        | none => (sanitizedFailure "Invalid phone number format", dbIns)
        | some nphone =>
          if !isValidBookingDate req.booking_date today then
            (errResponse 200 "תאריך לא תקין", dbIns)
          else if isSlotTaken dbPre req.booking_date req.booking_time then
            (errResponse 200 "השעה הזו כבר תפוסה", dbIns)
          else if isSlotClosed closed req.booking_date req.booking_time then
            (errResponse 200 "השעה הזו סגורה", dbIns)
          else if insertFault then
            (sanitizedFailure "Failed to create booking", dbIns)
          else
            match insertBooking dbIns (adminRequestedBooking nextId req nphone) with
            | .uniqueViolation =>
              (errResponse 200 "השעה הזו כבר תפוסה", dbIns)
            | .ok db' b => (okResponse (some b.id), db')

/-- The legacy `admin-create-booking` handler (`part_001`): no date
validation, no pre-checks, no phone normalization; every insert error —
the 23505 unique violation included — becomes the thrown
`"Failed to create booking"`, and the catch block returns `error.message`
verbatim (no `sanitizeError`). -/
def legacyAdminCreateBookingHandler (authHeader userOk isAdmin : Bool)
    (parse : Except String AdminBookingRequest)
    (db : List Booking) (nextId : Nat) (insertFault : Bool) :
    HttpResponse × List Booking :=
  if !authHeader then (errResponse 401 "Unauthorized", db)
  else if !userOk then (errResponse 401 "Unauthorized", db)
  else if !isAdmin then (errResponse 403 "Forbidden - Admin only", db)
  else
    match parse with
    | .error m => (errResponse 500 m, db)
    | .ok req =>
      if req.customer_name == "" || req.customer_phone == "" ||
          req.booking_time == "" then
        (errResponse 500 "Missing required fields", db)
      else if insertFault then
        (errResponse 500 "Failed to create booking", db)
      else
        match insertBooking db
            ⟨nextId, req.customer_name.trim, req.customer_phone.trim,
              req.booking_date, req.booking_time, "confirmed"⟩ with
        | .uniqueViolation => (errResponse 500 "Failed to create booking", db)
        | .ok db' b => (okResponse (some b.id), db')

/-- `verify-code` edge function (`part_003`): validation, the two
rate-limit gates, attempt recording, the atomic consume, and failure
recording.  Returns the response, the verification table, and the
rate-limit table. -/
def verifyCodeHandler (parse : Except String (String × String))
    (codes : List VerificationCode) (rl : List RateRecord) (now : Int)
    (rlError recError updateFault : Bool) :
    HttpResponse × List VerificationCode × List RateRecord :=
  match parse with
  | .error m => (sanitizedFailure m, codes, rl)
  | .ok (phone, code) =>
    if phone == "" || code == "" then
      (sanitizedFailure "Phone and code are required", codes, rl)
    else if !codeFormatOk code then
      (sanitizedFailure "Invalid code format", codes, rl)
    else
      match normalizePhone phone with
      | none => (sanitizedFailure "Invalid phone number format", codes, rl)
      | some nphone =>
        if !checkRateLimit rl nphone "verify_attempt" now rlError then
          (errResponse 429 "יותר מדי ניסיונות, נסה שוב בעוד 15 דקות", codes, rl)
        else if !checkRateLimit rl nphone "verify_fail" now rlError then
          (errResponse 429 "החשבון נעול, נסה שוב בעוד 15 דקות", codes, rl)
        else
          let rl1 := recordRateLimit rl nphone "verify_attempt" now recError
          if updateFault then
            (sanitizedFailure "Database error", codes, rl1)
          else
            match consumeCode codes nphone code now with
            | (none, codes') =>
              (errResponse 200 "קוד שגוי או פג תוקף", codes',
                recordRateLimit rl1 nphone "verify_fail" now recError)
            | (some _, codes') => (okResponse none, codes', rl1)

/-! ## Helper lemmas -/

theorem phoneChar_of_mem_cleanPhone {l : List Char} {c : Char}
    (h : c ∈ cleanPhone l) : phoneChar c = true :=
  (List.mem_filter.mp h).2

theorem cleanPhone_eq_self {l : List Char}
    (h : ∀ c ∈ l, phoneChar c = true) : cleanPhone l = l :=
  List.filter_eq_self.mpr h

theorem normalizePhoneL_chars {l v : List Char}
    (h : normalizePhoneL l = some v) : ∀ c ∈ v, phoneChar c = true := by
  unfold normalizePhoneL at h
  split_ifs at h with h1 h2 h3 h4 <;>
    injection h with h' <;> subst h' <;> intro c hc
  · exact phoneChar_of_mem_cleanPhone hc
  · rcases List.mem_cons.mp hc with rfl | hc
    · decide
    · exact phoneChar_of_mem_cleanPhone hc
  · rcases List.mem_append.mp hc with hc | hc
    · fin_cases hc <;> decide
    · exact phoneChar_of_mem_cleanPhone ((List.drop_sublist 1 _).mem hc)
  · rcases List.mem_append.mp hc with hc | hc
    · fin_cases hc <;> decide
    · exact phoneChar_of_mem_cleanPhone hc

theorem normalizePhoneL_take4 {l v : List Char}
    (h : normalizePhoneL l = some v) : v.take 4 = ['+', '9', '7', '2'] := by
  unfold normalizePhoneL at h
  split_ifs at h with h1 h2 h3 h4 <;> injection h with h' <;> subst h'
  · exact h1
  · simp [List.take_succ_cons, h2]
  · exact List.take_left' rfl
  · exact List.take_left' rfl

theorem normalizePhoneL_idem {l v : List Char}
    (h : normalizePhoneL l = some v) : normalizePhoneL v = some v := by
  have hclean : cleanPhone v = v := cleanPhone_eq_self (normalizePhoneL_chars h)
  unfold normalizePhoneL
  rw [hclean, normalizePhoneL_take4 h, if_pos rfl]

theorem normalizePhoneL_local {ds : List Char}
    (hdig : ∀ c ∈ ds, c.isDigit = true) :
    normalizePhoneL ('0' :: '5' :: ds) = some (['+', '9', '7', '2', '5'] ++ ds) := by
  have hall : ∀ c ∈ ('0' :: '5' :: ds), phoneChar c = true := by
    intro c hc
    rcases List.mem_cons.mp hc with rfl | hc
    · decide
    rcases List.mem_cons.mp hc with rfl | hc
    · decide
    · simp [phoneChar, hdig c hc]
  have hclean : cleanPhone ('0' :: '5' :: ds) = '0' :: '5' :: ds :=
    cleanPhone_eq_self hall
  unfold normalizePhoneL
  rw [hclean]
  rw [if_neg (by simp [List.take_succ_cons]), if_neg (by simp [List.take_succ_cons]),
    if_pos (by simp [List.take_succ_cons])]
  rfl

theorem normalizePhoneL_e164 {ds : List Char}
    (hdig : ∀ c ∈ ds, c.isDigit = true) :
    normalizePhoneL (['+', '9', '7', '2', '5'] ++ ds) =
      some (['+', '9', '7', '2', '5'] ++ ds) := by
  have hall : ∀ c ∈ (['+', '9', '7', '2', '5'] ++ ds), phoneChar c = true := by
    intro c hc
    rcases List.mem_append.mp hc with hc | hc
    · fin_cases hc <;> decide
    · simp [phoneChar, hdig c hc]
  unfold normalizePhoneL
  rw [cleanPhone_eq_self hall, if_pos (by simp [List.take_succ_cons])]

/-! ## C10 -/

/-- C10: `normalizePhone` is idempotent on its successes, and on a
10-digit local Israeli mobile string `05XXXXXXXX` it produces an
E.164 string beginning with `+972` whose `toLocalPhone` image is the
original local string. -/
theorem phone_normalization_idempotent_and_roundtrip
    (s v : String) (ds : List Char)
    (h : normalizePhone s = some v)
    (_hlen : ds.length = 8) (hdig : ∀ c ∈ ds, c.isDigit = true) :
    normalizePhone v = some v ∧
    normalizePhone (String.mk ('0' :: '5' :: ds)) =
      some (String.mk (['+', '9', '7', '2', '5'] ++ ds)) ∧
    toLocalPhone (String.mk (['+', '9', '7', '2', '5'] ++ ds)) =
      some (String.mk ('0' :: '5' :: ds)) ∧
    (String.mk (['+', '9', '7', '2', '5'] ++ ds)).data.take 4 =
      ['+', '9', '7', '2'] := by
  refine ⟨?_, ?_, ?_, ?_⟩
  · obtain ⟨w, hw, hmk⟩ := Option.map_eq_some'.mp h
    have hidem := normalizePhoneL_idem hw
    subst hmk
    unfold normalizePhone
    rw [hidem]
    rfl
  · unfold normalizePhone
    rw [show (String.mk ('0' :: '5' :: ds)).data = '0' :: '5' :: ds from rfl,
      normalizePhoneL_local hdig]
    rfl
  · unfold toLocalPhone
    rw [show (String.mk (['+', '9', '7', '2', '5'] ++ ds)).data =
        ['+', '9', '7', '2', '5'] ++ ds from rfl,
      normalizePhoneL_e164 hdig]
    rfl
  · rfl

theorem phone_normalization_idempotent_and_roundtrip_witness :
    normalizePhone "+972541234567" = some "+972541234567" ∧
    normalizePhone (String.mk ('0' :: '5' :: "41234567".data)) =
      some (String.mk (['+', '9', '7', '2', '5'] ++ "41234567".data)) := by
  have h := phone_normalization_idempotent_and_roundtrip
    "054-123-4567" "+972541234567" "41234567".data (by decide) (by decide)
    (by decide)
  exact ⟨h.1, h.2.1⟩

/-! ## C4 -/

/-- C4: the rate limiter allows an action exactly when the number of
recorded rows for that identifier and kind with `created_at` strictly
newer than `now − window` is below the configured max; the configured
table is sms_send 3/60min, verify_attempt 10/15min, verify_fail 5/15min;
with records at t = 0, 10, 20 minutes a 4th sms_send attempt at t = 30
minutes is rejected, and an attempt at t = 61 minutes is allowed. -/
theorem rate_limit_sliding_window
    (db : List RateRecord) (id act : String) (now : Int)
    (cfg : RateLimitConfig) (hcfg : RATE_LIMITS act = some cfg) :
    (checkRateLimit db id act now false = true ↔
      (db.filter (fun r => r.identifier == id && r.action_type == act &&
          decide (now - (cfg.windowMinutes : Int) * 60 < r.created_at))).length <
        cfg.maxAttempts) ∧
    RATE_LIMITS "sms_send" = some ⟨3, 60⟩ ∧
    RATE_LIMITS "verify_attempt" = some ⟨10, 15⟩ ∧
    RATE_LIMITS "verify_fail" = some ⟨5, 15⟩ ∧
    checkRateLimit
      [⟨"p", "sms_send", 0⟩, ⟨"p", "sms_send", 600⟩, ⟨"p", "sms_send", 1200⟩]
      "p" "sms_send" 1800 false = false ∧
    checkRateLimit
      [⟨"p", "sms_send", 0⟩, ⟨"p", "sms_send", 600⟩, ⟨"p", "sms_send", 1200⟩]
      "p" "sms_send" 3660 false = true := by
  refine ⟨?_, rfl, rfl, rfl, by decide, by decide⟩
  unfold checkRateLimit
  rw [hcfg]
  simp only [Bool.false_eq_true, if_false]
  simp only [check_rate_limit, decide_eq_true_eq]
  exact Iff.rfl

theorem rate_limit_sliding_window_witness :
    checkRateLimit
      [⟨"p", "sms_send", 0⟩, ⟨"p", "sms_send", 600⟩, ⟨"p", "sms_send", 1200⟩]
      "p" "sms_send" 1800 false = false := by
  exact (rate_limit_sliding_window [] "q" "sms_send" 0 ⟨3, 60⟩ rfl).2.2.2.2.1

/-! ## C8 -/

/-- C8: the rate limiter is fail-open — an unknown action kind is allowed,
a storage error during the count query is allowed — and a failure while
recording an attempt leaves the table unchanged and returns normally
(while a successful record appends the row). -/
theorem rate_limiter_fail_open
    (db : List RateRecord) (id act : String) (now : Int)
    (hunknown : RATE_LIMITS act = none) :
    checkRateLimit db id act now false = true ∧
    (∀ act2 : String, checkRateLimit db id act2 now true = true) ∧
    recordRateLimit db id act now true = db ∧
    recordRateLimit db id act now false = db ++ [⟨id, act, now⟩] := by
  refine ⟨?_, ?_, rfl, rfl⟩
  · unfold checkRateLimit
    rw [hunknown]
  · intro act2
    unfold checkRateLimit
    cases RATE_LIMITS act2 <;> simp

theorem rate_limiter_fail_open_witness :
    checkRateLimit [] "p" "custom_action" 0 false = true ∧
    recordRateLimit [] "p" "custom_action" 0 true = [] := by
  have h := rate_limiter_fail_open [] "p" "custom_action" 0 (by decide)
  exact ⟨h.1, h.2.2.1⟩

/-! ## Verification-store lemmas -/

theorem map_if_id {α : Type} (p : α → Bool) (f : α → α) (l : List α)
    (h : ∀ a ∈ l, p a = false) :
    l.map (fun a => if p a then f a else a) = l := by
  induction l with
  | nil => rfl
  | cons a l ih =>
    have ha := h a (List.mem_cons_self a l)
    simp only [List.map_cons, ha, if_false, Bool.false_eq_true,
      ih (fun b hb => h b (List.mem_cons_of_mem a hb))]

/-- A consume whose condition matches no row: `maybeSingle` returns no
row and the table is unchanged (zero rows affected). -/
theorem consumeCode_of_no_match (db : List VerificationCode)
    (phone code : String) (t : Int)
    (hmiss : ∀ r ∈ db, codeMatches phone code t r = false) :
    consumeCode db phone code t = (none, db) := by
  unfold consumeCode
  rw [List.filter_eq_nil_iff.mpr (fun r hr => by simp [hmiss r hr]),
    map_if_id _ _ db hmiss]
  rfl

theorem codeMatches_false_of_phone_filter {db : List VerificationCode}
    {phone : String} {r : VerificationCode}
    (hr : r ∈ db.filter (fun r => !(r.phone == phone)))
    (code : String) (t : Int) : codeMatches phone code t r = false := by
  have hne : (r.phone == phone) = false := by
    simpa using (List.mem_filter.mp hr).2
  simp [codeMatches, hne]

/-- The count of rows for the issued phone is exactly one after issuance. -/
theorem issueCode_countP_self (db : List VerificationCode)
    (phone code : String) (ttl now : Int) :
    (issueCode db phone code ttl now).countP (fun r => r.phone == phone) = 1 := by
  unfold issueCode
  rw [List.countP_append]
  rw [List.countP_eq_zero.mpr (fun r hr => by
    have hne : (r.phone == phone) = false := by
      simpa using (List.mem_filter.mp hr).2
    simp [hne])]
  simp

/-! ## C1 -/

/-- C1: after issuing a fresh code, the first consume before expiry
succeeds — the conditional update matching phone, code,
`verified = false`, `expires_at > now` flips `verified` to `true` and
returns the row — while a second consume with the now-used code, and any
consume after expiry, returns no row and affects zero rows. -/
theorem verification_code_consumed_exactly_once
    (db0 : List VerificationCode) (phone code : String) (ttl now t1 t2 : Int)
    (_hfresh : now ≤ t1) (hunexp : t1 < now + ttl) (_hseq : t1 ≤ t2) :
    (consumeCode (issueCode db0 phone code ttl now) phone code t1).1 =
      some ⟨phone, code, now + ttl, true⟩ ∧
    (consumeCode (issueCode db0 phone code ttl now) phone code t1).2 =
      db0.filter (fun r => !(r.phone == phone)) ++
        [⟨phone, code, now + ttl, true⟩] ∧
    (consumeCode
        ((consumeCode (issueCode db0 phone code ttl now) phone code t1).2)
        phone code t2).1 = none ∧
    (consumeCode
        ((consumeCode (issueCode db0 phone code ttl now) phone code t1).2)
        phone code t2).2 =
      (consumeCode (issueCode db0 phone code ttl now) phone code t1).2 ∧
    (∀ t3, now + ttl ≤ t3 →
      (consumeCode (issueCode db0 phone code ttl now) phone code t3).1 = none ∧
      (consumeCode (issueCode db0 phone code ttl now) phone code t3).2 =
        issueCode db0 phone code ttl now) := by
  have hrow : codeMatches phone code t1 ⟨phone, code, now + ttl, false⟩ = true := by
    simp [codeMatches, hunexp]
  have hfirst :
      consumeCode (issueCode db0 phone code ttl now) phone code t1 =
        (some ⟨phone, code, now + ttl, true⟩,
          db0.filter (fun r => !(r.phone == phone)) ++
            [⟨phone, code, now + ttl, true⟩]) := by
    unfold consumeCode issueCode
    rw [List.filter_append, List.map_append,
      List.filter_eq_nil_iff.mpr (fun r hr => by
        simp [codeMatches_false_of_phone_filter hr code t1]),
      map_if_id _ _ _ (fun r hr => codeMatches_false_of_phone_filter hr code t1)]
    simp [hrow]
  have hsecond :
      consumeCode
          (db0.filter (fun r => !(r.phone == phone)) ++
            [⟨phone, code, now + ttl, true⟩]) phone code t2 =
        (none,
          db0.filter (fun r => !(r.phone == phone)) ++
            [⟨phone, code, now + ttl, true⟩]) := by
    apply consumeCode_of_no_match
    intro r hr
    rcases List.mem_append.mp hr with hr | hr
    · exact codeMatches_false_of_phone_filter hr code t2
    · rcases List.mem_singleton.mp hr with rfl
      simp [codeMatches]
  refine ⟨by rw [hfirst], by rw [hfirst], ?_, ?_, ?_⟩
  · rw [hfirst, hsecond]
  · rw [hfirst, hsecond]
  · intro t3 hexp
    have hall : consumeCode (issueCode db0 phone code ttl now) phone code t3 =
        (none, issueCode db0 phone code ttl now) := by
      apply consumeCode_of_no_match
      intro r hr
      unfold issueCode at hr
      rcases List.mem_append.mp hr with hr | hr
      · exact codeMatches_false_of_phone_filter hr code t3
      · rcases List.mem_singleton.mp hr with rfl
        simp [codeMatches, not_lt.mpr hexp]
    rw [hall]
    exact ⟨rfl, rfl⟩

theorem verification_code_consumed_exactly_once_witness :
    (consumeCode (issueCode [] "+972541234567" "482913" 300 0)
        "+972541234567" "482913" 10).1 =
      some ⟨"+972541234567", "482913", 0 + 300, true⟩ ∧
    (consumeCode
        ((consumeCode (issueCode [] "+972541234567" "482913" 300 0)
            "+972541234567" "482913" 10).2)
        "+972541234567" "482913" 20).1 = none := by
  have h := verification_code_consumed_exactly_once [] "+972541234567"
    "482913" 300 0 10 20 (by decide) (by decide) (by decide)
  exact ⟨h.1, h.2.2.1⟩

/-! ## C5 -/

/-- C5: issuance deletes every prior record for the phone and inserts one
fresh row with `expires_at = now + ttl` and `verified = false`, keeping at
most one row per phone; after a second issuance for the same phone, a
consume with the first (superseded) code finds no row — even before the
first code's TTL has elapsed. -/
theorem code_issuance_supersedes
    (db0 : List VerificationCode) (phone code1 code2 : String)
    (ttl1 ttl2 now1 now2 t : Int) (hne : code1 ≠ code2)
    (hmax : ∀ p : String, db0.countP (fun r => r.phone == p) ≤ 1) :
    issueCode db0 phone code1 ttl1 now1 =
      db0.filter (fun r => !(r.phone == phone)) ++
        [⟨phone, code1, now1 + ttl1, false⟩] ∧
    (issueCode db0 phone code1 ttl1 now1).countP
      (fun r => r.phone == phone) = 1 ∧
    (∀ p : String,
      (issueCode db0 phone code1 ttl1 now1).countP (fun r => r.phone == p) ≤ 1) ∧
    (consumeCode
        (issueCode (issueCode db0 phone code1 ttl1 now1) phone code2 ttl2 now2)
        phone code1 t).1 = none ∧
    (consumeCode
        (issueCode (issueCode db0 phone code1 ttl1 now1) phone code2 ttl2 now2)
        phone code1 t).2 =
      issueCode (issueCode db0 phone code1 ttl1 now1) phone code2 ttl2 now2 := by
  have hcons :
      consumeCode
          (issueCode (issueCode db0 phone code1 ttl1 now1) phone code2 ttl2 now2)
          phone code1 t =
        (none,
          issueCode (issueCode db0 phone code1 ttl1 now1) phone code2 ttl2 now2) := by
    apply consumeCode_of_no_match
    intro r hr
    unfold issueCode at hr
    rcases List.mem_append.mp hr with hr | hr
    · exact codeMatches_false_of_phone_filter hr code1 t
    · rcases List.mem_singleton.mp hr with rfl
      have hc : (code2 == code1) = false := by simp [Ne.symm hne]
      simp [codeMatches, hc]
  refine ⟨rfl, issueCode_countP_self db0 phone code1 ttl1 now1, ?_,
    by rw [hcons], by rw [hcons]⟩
  intro p
  by_cases hp : p = phone
  · subst hp
    rw [issueCode_countP_self]
  · unfold issueCode
    rw [List.countP_append]
    have h1 : (db0.filter (fun r => !(r.phone == phone))).countP
        (fun r => r.phone == p) ≤ db0.countP (fun r => r.phone == p) := by
      rw [List.countP_filter]
      exact List.countP_mono_left (fun r _ h => by
        simp only [Bool.and_eq_true] at h
        exact h.1)
    have h2 : List.countP (fun r => r.phone == p)
        [(⟨phone, code1, now1 + ttl1, false⟩ : VerificationCode)] = 0 := by
      simp [Ne.symm hp]
    have h3 := hmax p
    omega

theorem code_issuance_supersedes_witness :
    (consumeCode
        (issueCode (issueCode [] "+972541234567" "482913" 300 0)
          "+972541234567" "771265" 300 60)
        "+972541234567" "482913" 70).1 = none := by
  have h := code_issuance_supersedes [] "+972541234567" "482913" "771265"
    300 300 0 60 70 (by decide) (fun p => by simp)
  exact h.2.2.2.1

/-! ## C6 -/

/-- C6: date validation accepts exactly the midnight-aligned dates with
`today ≤ date ≤ today + 60` (both ends inclusive): `today` and
`today + 60` pass, `today − 1` and `today + 61` fail, and a booking
request failing the check is rejected by the handler with the
invalid-date outcome. -/
theorem booking_date_window
    (d today : Int) (req : BookingRequest) (np : String)
    (codes : List VerificationCode) (dbPre dbIns : List Booking)
    (closed : List ClosedSlot) (now : Int) (nextId : Nat)
    (vF iF : Bool)
    (hp : req.phone ≠ "") (hc : req.code ≠ "") (hn : req.customer_name ≠ "")
    (ht : req.booking_time ≠ "")
    (hfmt : codeFormatOk req.code = true)
    (hnorm : normalizePhone req.phone = some np)
    (hinvalid : isValidBookingDate req.booking_date today = false) :
    (isValidBookingDate d today = true ↔ today ≤ d ∧ d ≤ today + 60) ∧
    isValidBookingDate today today = true ∧
    isValidBookingDate (today + 60) today = true ∧
    isValidBookingDate (today - 1) today = false ∧
    isValidBookingDate (today + 61) today = false ∧
    createBookingHandler (.ok req) codes dbPre dbIns closed today now nextId
        vF iF =
      (errResponse 200 "תאריך לא תקין", codes, dbIns) := by
  refine ⟨?_, ?_, ?_, ?_, ?_, ?_⟩
  · simp [isValidBookingDate]
  · simp [isValidBookingDate]
  · simp [isValidBookingDate]
  · simp [isValidBookingDate]
  · simp [isValidBookingDate]
  · simp only [createBookingHandler, hnorm, hfmt, hinvalid]
    simp [hp, hc, hn, ht]

theorem booking_date_window_witness :
    isValidBookingDate 60 0 = true ∧
    isValidBookingDate 61 0 = false ∧
    createBookingHandler
        (.ok ⟨"0541234567", "123456", "Dana", 99999, "10:00"⟩)
        [] [] [] [] 0 0 1 false false =
      (errResponse 200 "תאריך לא תקין", [], []) := by
  have h := booking_date_window 60 0
    ⟨"0541234567", "123456", "Dana", 99999, "10:00"⟩ "+972541234567"
    [] [] [] [] 0 1 false false
    (by decide) (by decide) (by decide) (by decide) (by decide) (by decide)
    (by decide)
  have h61 := booking_date_window 61 0
    ⟨"0541234567", "123456", "Dana", 99999, "10:00"⟩ "+972541234567"
    [] [] [] [] 0 1 false false
    (by decide) (by decide) (by decide) (by decide) (by decide) (by decide)
    (by decide)
  exact ⟨(h.1).mpr (by omega), by
    rw [Bool.eq_false_iff]
    intro hcontra
    have := (h61.1).mp hcontra
    omega, h.2.2.2.2.2⟩

/-! ## Slot-store lemmas -/

/-- An insert that the partial unique index lets through extends a
slot-unique table to a slot-unique table. -/
theorem insertBooking_preserves {db : List Booking} {b : Booking}
    {db' : List Booking} {b' : Booking} (hu : SlotUnique db)
    (h : insertBooking db b = .ok db' b') : SlotUnique db' := by
  unfold insertBooking at h
  by_cases hc : (!(b.status == "cancelled") &&
      isSlotTaken db b.booking_date b.booking_time) = true
  · rw [if_pos hc] at h
    exact absurd h (by simp)
  · rw [if_neg hc] at h
    injection h with h1 h2
    subst h1
    unfold SlotUnique
    rw [List.pairwise_append]
    refine ⟨hu, List.pairwise_singleton _ _, ?_⟩
    intro x hx y hy
    rcases List.mem_singleton.mp hy with rfl
    rintro ⟨hd, ht, hxs, hys⟩
    apply hc
    simp only [Bool.and_eq_true, Bool.not_eq_true', beq_eq_false_iff_ne]
    refine ⟨hys, ?_⟩
    unfold isSlotTaken
    rw [List.any_eq_true]
    exact ⟨x, hx, by simp [slotTakenBy, hd, ht, hxs]⟩

/-- Cancelling by id only moves rows towards `cancelled`, so it preserves
slot uniqueness. -/
theorem cancelBooking_preserves {db : List Booking} (bid : Nat)
    (hu : SlotUnique db) : SlotUnique (cancelBooking db bid) := by
  unfold SlotUnique cancelBooking
  apply List.Pairwise.map _ _ hu
  intro a b hR
  rintro ⟨hd, ht, ha, hb⟩
  have fa : (if a.id == bid then { a with status := "cancelled" } else a) = a := by
    by_cases hid : (a.id == bid) = true
    · rw [if_pos hid] at ha
      exact absurd rfl ha
    · rw [if_neg hid]
  have fb : (if b.id == bid then { b with status := "cancelled" } else b) = b := by
    by_cases hid : (b.id == bid) = true
    · rw [if_pos hid] at hb
      exact absurd rfl hb
    · rw [if_neg hid]
  rw [fa] at hd ht ha
  rw [fb] at hd ht hb
  exact hR ⟨hd, ht, ha, hb⟩

theorem handleCancellation_preserves (db : List Booking) (phone : String)
    (now : Int) (hu : SlotUnique db) :
    SlotUnique (handleCancellation db phone now).2 := by
  unfold handleCancellation
  split
  · exact hu
  · exact cancelBooking_preserves _ hu

/-! ## C2 -/

/-- C2: the partial unique index rejects any insert of an active row into
an occupied slot regardless of pre-checks; accepted inserts, both
booking-creation handlers, the legacy admin handler, and cancellation all
preserve the at-most-one-active-booking-per-slot invariant. -/
theorem slot_uniqueness_invariant (db : List Booking) (hu : SlotUnique db) :
    (∀ b : Booking, b.status ≠ "cancelled" →
      isSlotTaken db b.booking_date b.booking_time = true →
      insertBooking db b = .uniqueViolation) ∧
    (∀ (b : Booking) (db' : List Booking) (b' : Booking),
      insertBooking db b = .ok db' b' → SlotUnique db') ∧
    (∀ parse codes closed today now nextId vF iF,
      SlotUnique
        (createBookingHandler parse codes db db closed today now nextId
          vF iF).2.2) ∧
    (∀ aH uO iA parse closed today nextId iF,
      SlotUnique
        (adminCreateBookingHandler aH uO iA parse db db closed today nextId
          iF).2) ∧
    (∀ aH uO iA parse nextId iF,
      SlotUnique
        (legacyAdminCreateBookingHandler aH uO iA parse db nextId iF).2) ∧
    (∀ phone now, SlotUnique (handleCancellation db phone now).2) := by
  refine ⟨?_, ?_, ?_, ?_, ?_, ?_⟩
  · intro b hstat htaken
    unfold insertBooking
    rw [if_pos]
    simp only [Bool.and_eq_true, Bool.not_eq_true', beq_eq_false_iff_ne]
    exact ⟨hstat, htaken⟩
  · intro b db' b' h
    exact insertBooking_preserves hu h
  · intro parse codes closed today now nextId vF iF
    cases parse with
    | error m => exact hu
    | ok req =>
      unfold createBookingHandler
      repeat' split
      all_goals try exact hu
      all_goals rename_i heq
      all_goals exact insertBooking_preserves hu heq
  · intro aH uO iA parse closed today nextId iF
    unfold adminCreateBookingHandler
    repeat' split
    all_goals try exact hu
    all_goals rename_i heq
    all_goals exact insertBooking_preserves hu heq
  · intro aH uO iA parse nextId iF
    unfold legacyAdminCreateBookingHandler
    repeat' split
    all_goals try exact hu
    all_goals rename_i heq
    all_goals exact insertBooking_preserves hu heq
  · intro phone now
    exact handleCancellation_preserves db phone now hu

theorem slot_uniqueness_invariant_witness :
    insertBooking [⟨1, "Omer", "+972541234567", 20500, "10:00", "confirmed"⟩]
        ⟨2, "Dana", "+972549999999", 20500, "10:00", "confirmed"⟩ =
      .uniqueViolation ∧
    SlotUnique
      (handleCancellation
        [⟨1, "Omer", "+972541234567", 20500, "10:00", "confirmed"⟩]
        "+972541234567" 0).2 := by
  have h := slot_uniqueness_invariant
    [⟨1, "Omer", "+972541234567", 20500, "10:00", "confirmed"⟩] (by decide)
  exact ⟨h.1 ⟨2, "Dana", "+972549999999", 20500, "10:00", "confirmed"⟩
    (by decide) (by decide), h.2.2.2.2.2 "+972541234567" 0⟩

/-! ## C3 -/

/-- C3 (amended): on the public path and the security-fixed admin path a
23505 unique violation at insert time — the slot free at pre-check time
but taken at insert time — produces exactly the response a pre-check
conflict produces; the legacy admin handler instead maps every insert
error, the 23505 violation included, to the generic 500
"Failed to create booking" result. -/
theorem race_conflict_maps_to_slot_unavailable
    (req : BookingRequest) (np : String) (r : VerificationCode)
    (codes : List VerificationCode) (dbPre dbIns : List Booking)
    (closed : List ClosedSlot) (today now : Int) (nextId : Nat)
    (hp : req.phone ≠ "") (hc : req.code ≠ "") (hn : req.customer_name ≠ "")
    (ht : req.booking_time ≠ "")
    (hfmt : codeFormatOk req.code = true)
    (hnorm : normalizePhone req.phone = some np)
    (hdate : isValidBookingDate req.booking_date today = true)
    (hcons : (consumeCode codes np req.code now).1 = some r)
    (hfree : isSlotTaken dbPre req.booking_date req.booking_time = false)
    (hopen : isSlotClosed closed req.booking_date req.booking_time = false)
    (htaken : isSlotTaken dbIns req.booking_date req.booking_time = true) :
    createBookingHandler (.ok req) codes dbPre dbIns closed today now nextId
        false false =
      (errResponse 200 "השעה הזו כבר תפוסה",
        (consumeCode codes np req.code now).2, dbIns) ∧
    (∀ dbPre2 : List Booking,
      isSlotTaken dbPre2 req.booking_date req.booking_time = true →
      createBookingHandler (.ok req) codes dbPre2 dbIns closed today now nextId
          false false =
        (errResponse 200 "השעה הזו כבר תפוסה",
          (consumeCode codes np req.code now).2, dbIns)) ∧
    (∀ (areq : AdminBookingRequest) (anp : String),
      areq.customer_name ≠ "" → areq.customer_phone ≠ "" →
      areq.booking_time ≠ "" →
      normalizePhone areq.customer_phone = some anp →
      isValidBookingDate areq.booking_date today = true →
      isSlotTaken dbPre areq.booking_date areq.booking_time = false →
      isSlotClosed closed areq.booking_date areq.booking_time = false →
      isSlotTaken dbIns areq.booking_date areq.booking_time = true →
      adminCreateBookingHandler true true true (.ok areq) dbPre dbIns closed
          today nextId false =
        (errResponse 200 "השעה הזו כבר תפוסה", dbIns)) ∧
    (∀ areq : AdminBookingRequest,
      areq.customer_name ≠ "" → areq.customer_phone ≠ "" →
      areq.booking_time ≠ "" →
      isSlotTaken dbIns areq.booking_date areq.booking_time = true →
      legacyAdminCreateBookingHandler true true true (.ok areq) dbIns nextId
          false =
        (errResponse 500 "Failed to create booking", dbIns)) := by
  have hins : insertBooking dbIns (requestedBooking nextId req np) =
      .uniqueViolation := by
    unfold insertBooking requestedBooking
    rw [if_pos]
    simpa using htaken
  rcases hsplit : consumeCode codes np req.code now with ⟨res, codes2⟩
  rw [hsplit] at hcons
  have hres : res = some r := hcons
  subst hres
  refine ⟨?_, ?_, ?_, ?_⟩
  · simp only [createBookingHandler, hnorm, hfmt, hdate, hsplit, hfree, hopen,
      hins]
    simp [hp, hc, hn, ht]
  · intro dbPre2 htaken2
    simp only [createBookingHandler, hnorm, hfmt, hdate, hsplit, htaken2]
    simp [hp, hc, hn, ht]
  · intro areq anp hn2 hp2 ht2 hnorm2 hdate2 hfree2 hopen2 htaken2
    have hins2 : insertBooking dbIns (adminRequestedBooking nextId areq anp) =
        .uniqueViolation := by
      unfold insertBooking adminRequestedBooking
      rw [if_pos]
      simpa using htaken2
    simp only [adminCreateBookingHandler, hnorm2, hdate2, hfree2, hopen2,
      hins2]
    simp [hn2, hp2, ht2]
  · intro areq hn2 hp2 ht2 htaken2
    have hins2 : insertBooking dbIns
        ⟨nextId, areq.customer_name.trim, areq.customer_phone.trim,
          areq.booking_date, areq.booking_time, "confirmed"⟩ =
        .uniqueViolation := by
      unfold insertBooking
      rw [if_pos]
      simpa using htaken2
    simp only [legacyAdminCreateBookingHandler, hins2]
    simp [hn2, hp2, ht2]

/-- C3 as stated is false on the legacy admin path: with the slot already
taken, the 23505 unique violation surfaces as the generic internal-error
response, not as the slot-unavailable outcome. -/
theorem race_conflict_counterexample :
    legacyAdminCreateBookingHandler true true true
        (.ok ⟨"Dana", "0549999999", 20500, "10:00"⟩)
        [⟨1, "Omer", "0541234567", 20500, "10:00", "confirmed"⟩] 2 false =
      (errResponse 500 "Failed to create booking",
        [⟨1, "Omer", "0541234567", 20500, "10:00", "confirmed"⟩]) ∧
    errResponse 500 "Failed to create booking" ≠
      errResponse 200 "השעה הזו כבר תפוסה" ∧
    (errResponse 500 "Failed to create booking").status = 500 := by
  refine ⟨rfl, by decide, rfl⟩

theorem race_conflict_maps_to_slot_unavailable_witness :
    createBookingHandler
        (.ok ⟨"0541234567", "482913", "Dana", 20500, "10:00"⟩)
        [⟨"+972541234567", "482913", 100, false⟩]
        []
        [⟨1, "Omer", "+972549999999", 20500, "10:00", "confirmed"⟩]
        [] 20480 0 2 false false =
      (errResponse 200 "השעה הזו כבר תפוסה",
        [⟨"+972541234567", "482913", 100, true⟩],
        [⟨1, "Omer", "+972549999999", 20500, "10:00", "confirmed"⟩]) := by
  have h := race_conflict_maps_to_slot_unavailable
    ⟨"0541234567", "482913", "Dana", 20500, "10:00"⟩ "+972541234567"
    ⟨"+972541234567", "482913", 100, true⟩
    [⟨"+972541234567", "482913", 100, false⟩]
    []
    [⟨1, "Omer", "+972549999999", 20500, "10:00", "confirmed"⟩]
    [] 20480 0 2
    (by decide) (by decide) (by decide) (by decide) (by decide) (by decide)
    (by decide) (by decide) (by decide) (by decide) (by decide)
  exact h.1

/-! ## C9 -/

theorem sanitizeError_mem_safe (msg : String) :
    sanitizeError msg ∈ SAFE_OUTPUTS := by
  unfold sanitizeError
  cases hf : SAFE_ERROR_MESSAGES.find? (fun kv => strContains msg kv.fst) with
  | none => simp [SAFE_OUTPUTS]
  | some kv =>
    exact List.mem_append.mpr
      (.inl (List.mem_map.mpr ⟨kv, List.mem_of_find?_eq_some hf, rfl⟩))

/-- C9 (amended): on the security-fixed handlers — public create-booking,
fixed admin-create-booking, verify-code — every 500 response carries a
message from the fixed safe table or the generic fallback, for every
input and every raw internal error message; `sanitizeError` never returns
anything outside that set.  (The legacy admin handler and the send-sms
function return the raw `error.message` instead; see the
counterexample.) -/
theorem internal_errors_sanitized :
    (∀ msg : String, sanitizeError msg ∈ SAFE_OUTPUTS) ∧
    (∀ parse codes dbPre dbIns closed today now nextId vF iF,
      (createBookingHandler parse codes dbPre dbIns closed today now nextId
          vF iF).1.status = 500 →
      ∃ m, (createBookingHandler parse codes dbPre dbIns closed today now
          nextId vF iF).1.error = some m ∧ m ∈ SAFE_OUTPUTS) ∧
    (∀ aH uO iA parse dbPre dbIns closed today nextId iF,
      (adminCreateBookingHandler aH uO iA parse dbPre dbIns closed today
          nextId iF).1.status = 500 →
      ∃ m, (adminCreateBookingHandler aH uO iA parse dbPre dbIns closed today
          nextId iF).1.error = some m ∧ m ∈ SAFE_OUTPUTS) ∧
    (∀ parse codes rl now e1 e2 e3,
      (verifyCodeHandler parse codes rl now e1 e2 e3).1.status = 500 →
      ∃ m, (verifyCodeHandler parse codes rl now e1 e2 e3).1.error = some m ∧
        m ∈ SAFE_OUTPUTS) := by
  refine ⟨sanitizeError_mem_safe, ?_, ?_, ?_⟩
  · intro parse codes dbPre dbIns closed today now nextId vF iF
    cases parse with
    | error m => exact fun _ => ⟨sanitizeError m, rfl, sanitizeError_mem_safe m⟩
    | ok req =>
      unfold createBookingHandler
      repeat' split
      all_goals intro h
      all_goals first
        | exact ⟨_, rfl, sanitizeError_mem_safe _⟩
        | (exfalso
           simp [errResponse, okResponse, sanitizedFailure] at h)
  · intro aH uO iA parse dbPre dbIns closed today nextId iF
    unfold adminCreateBookingHandler
    repeat' split
    all_goals intro h
    all_goals first
      | exact ⟨_, rfl, sanitizeError_mem_safe _⟩
      | (exfalso
         simp [errResponse, okResponse, sanitizedFailure] at h)
  · intro parse codes rl now e1 e2 e3
    unfold verifyCodeHandler
    repeat' split
    all_goals intro h
    all_goals first
      | exact ⟨_, rfl, sanitizeError_mem_safe _⟩
      | (exfalso
         simp [errResponse, okResponse, sanitizedFailure] at h)

/-- C9 as stated is false on the legacy admin path: its catch block sends
the raw exception message to the client, which is not in the safe set. -/
theorem internal_errors_counterexample :
    (legacyAdminCreateBookingHandler true true true
        (.error "TypeError: Cannot read properties of undefined") [] 1
        false).1.error =
      some "TypeError: Cannot read properties of undefined" ∧
    "TypeError: Cannot read properties of undefined" ∉ SAFE_OUTPUTS ∧
    (legacyAdminCreateBookingHandler true true true
        (.error "TypeError: Cannot read properties of undefined") [] 1
        false).1.status = 500 := by
  exact ⟨rfl, by decide, rfl⟩

theorem internal_errors_sanitized_witness :
    sanitizeError "connection reset by peer" ∈ SAFE_OUTPUTS ∧
    (∃ m, (createBookingHandler (.error "connection reset by peer") [] [] []
        [] 0 0 1 false false).1.error = some m ∧ m ∈ SAFE_OUTPUTS) := by
  exact ⟨internal_errors_sanitized.1 "connection reset by peer",
    internal_errors_sanitized.2.1 (.error "connection reset by peer") [] [] []
      [] 0 0 1 false false rfl⟩

/-! ## Cancellation lemmas -/

theorem zip_map_countP_changed {α : Type} [BEq α] (f : α → α) (l : List α) :
    (l.zip (l.map f)).countP (fun p => !(p.1 == p.2)) =
      l.countP (fun a => !(a == f a)) := by
  induction l with
  | nil => rfl
  | cons a l ih =>
    simp only [List.map_cons, List.zip_cons_cons, List.countP_cons, ih]

/-- With pairwise-distinct ids, cancelling by id changes at most one row
of the table. -/
theorem cancelBooking_changes_le_one (db : List Booking) (bid : Nat)
    (hids : (db.map Booking.id).Nodup) :
    (db.zip (cancelBooking db bid)).countP (fun p => !(p.1 == p.2)) ≤ 1 := by
  unfold cancelBooking
  rw [zip_map_countP_changed]
  have h1 : db.countP
      (fun a => !(a == if a.id == bid then { a with status := "cancelled" }
        else a)) ≤ db.countP (fun a => a.id == bid) := by
    apply List.countP_mono_left
    intro r _ h
    by_cases hid : (r.id == bid) = true
    · exact hid
    · rw [if_neg hid] at h
      simp at h
  have h2 : db.countP (fun a => a.id == bid) = (db.map Booking.id).count bid := by
    rw [List.count_eq_countP, List.countP_map]
    rfl
  have h3 : (db.map Booking.id).count bid ≤ 1 :=
    List.nodup_iff_count_le_one.mp hids bid
  omega

/-! ## C7 -/

/-- C7: the cancellation command scans this phone's non-cancelled
bookings in `(date, time)` order, skips rows whose stored time does not
parse (without aborting), cancels exactly the first booking at least
3 hours in the future — every earlier booking is ineligible — changes at
most that single row, leaves every other row untouched, and reports the
not-cancellable outcome when no booking qualifies. -/
theorem cancellation_first_eligible
    (db : List Booking) (phone : String) (now : Int)
    (hsort : (fetchActive db phone).Pairwise bookingKeyLE)
    (hids : (db.map Booking.id).Nodup) :
    (∀ b : Booking, (fetchActive db phone).find? (cancellable now) = some b →
      cancellable now b = true ∧
      handleCancellation db phone now = (some b, cancelBooking db b.id) ∧
      (∃ l1 l2, fetchActive db phone = l1 ++ b :: l2 ∧
        ∀ x ∈ l1, cancellable now x = false ∧ bookingKeyLE x b) ∧
      (∀ r ∈ db, r.id ≠ b.id → r ∈ (handleCancellation db phone now).2) ∧
      (db.zip (handleCancellation db phone now).2).countP
        (fun p => !(p.1 == p.2)) ≤ 1) ∧
    ((fetchActive db phone).find? (cancellable now) = none →
      handleCancellation db phone now = (none, db) ∧
      ∀ b ∈ fetchActive db phone, cancellable now b = false) ∧
    (∀ (b : Booking) (rest : List Booking),
      parseTimeSec b.booking_time = none →
      cancellable now b = false ∧
      (b :: rest).find? (cancellable now) = rest.find? (cancellable now)) := by
  refine ⟨?_, ?_, ?_⟩
  · intro b hfind
    have hcanc : cancellable now b = true := List.find?_some hfind
    have hhandle : handleCancellation db phone now =
        (some b, cancelBooking db b.id) := by
      unfold handleCancellation
      rw [hfind]
    refine ⟨hcanc, hhandle, ?_, ?_, ?_⟩
    · obtain ⟨-, l1, l2, hsplit, hmiss⟩ := List.find?_eq_some.mp hfind
      refine ⟨l1, l2, hsplit, fun x hx => ⟨by simpa using hmiss x hx, ?_⟩⟩
      rw [hsplit, List.pairwise_append] at hsort
      exact hsort.2.2 x hx b (List.mem_cons_self b l2)
    · intro r hr hne
      rw [hhandle]
      unfold cancelBooking
      refine List.mem_map.mpr ⟨r, hr, ?_⟩
      rw [if_neg (by simpa using hne)]
    · rw [hhandle]
      exact cancelBooking_changes_le_one db b.id hids
  · intro hnone
    have hhandle : handleCancellation db phone now = (none, db) := by
      unfold handleCancellation
      rw [hnone]
    exact ⟨hhandle, fun b hb => by
      simpa using List.find?_eq_none.mp hnone b hb⟩
  · intro b rest hbad
    have hcanc : cancellable now b = false := by
      unfold cancellable composeDateTime
      rw [hbad]
      rfl
    exact ⟨hcanc, List.find?_cons_of_neg rest (by simp [hcanc])⟩

theorem cancellation_first_eligible_witness :
    handleCancellation
        [⟨1, "Avi", "0541234567", 0, "01:00", "confirmed"⟩,
         ⟨2, "Avi", "0541234567", 0, "05:00", "confirmed"⟩]
        "0541234567" 0 =
      (some ⟨2, "Avi", "0541234567", 0, "05:00", "confirmed"⟩,
        [⟨1, "Avi", "0541234567", 0, "01:00", "confirmed"⟩,
         ⟨2, "Avi", "0541234567", 0, "05:00", "cancelled"⟩]) ∧
    handleCancellation
        [⟨1, "Avi", "0541234567", 0, "01:00", "confirmed"⟩,
         ⟨2, "Avi", "0541234567", 0, "05:00", "cancelled"⟩]
        "0541234567" 0 =
      (none,
        [⟨1, "Avi", "0541234567", 0, "01:00", "confirmed"⟩,
         ⟨2, "Avi", "0541234567", 0, "05:00", "cancelled"⟩]) := by
  have h1 := cancellation_first_eligible
    [⟨1, "Avi", "0541234567", 0, "01:00", "confirmed"⟩,
     ⟨2, "Avi", "0541234567", 0, "05:00", "confirmed"⟩]
    "0541234567" 0 (by decide) (by decide)
  have h2 := cancellation_first_eligible
    [⟨1, "Avi", "0541234567", 0, "01:00", "confirmed"⟩,
     ⟨2, "Avi", "0541234567", 0, "05:00", "cancelled"⟩]
    "0541234567" 0 (by decide) (by decide)
  have ha := (h1.1 ⟨2, "Avi", "0541234567", 0, "05:00", "confirmed"⟩
    (by decide)).2.1
  have hb := (h2.2.1 (by decide)).1
  exact ⟨by rw [ha]; decide, hb⟩

end MeaBarber
